import Mathlib

/-!
Shallow embedding of the OpenSquare frontend orchestration layer
(src/frontend/App.js).

The component state (React useState hooks) is modelled as an explicit
record `AppState`.  Each asynchronous handler is split into the
synchronous phase that runs before the awaited request and a completion
phase that runs when the promise settles; the promise outcome is passed
in as an `Except` value.  A `setMessages([...messages, m])` call in the
source closes over the `messages` snapshot captured when the handler was
invoked, so the corresponding completion function takes that snapshot as
an explicit argument; a functional update `setMessages(prev => [...prev, m])`
appends to the current list instead.
-/

/-- The `type` field of a chat message (the `kind` of a ConversationEntry). -/
inductive MsgType where
  | user
  | assistant
  | error
  | success
  deriving DecidableEq, Repr

/-- A citation object from the backend chat response: `{title, organization}`. -/
structure Citation where
  title : String
  organization : String
  deriving DecidableEq, Repr

/-- A message object as constructed in App.js.  `content` and `sources`
are `Option`s because on the chat path they are copied from the response
body and may be `undefined` (modelled as `none`); `sources` is only ever
set on assistant messages.  `timestamp` abstracts the `new Date()` value
as the current epoch-millisecond count. -/
structure Message where
  id : Nat
  type : MsgType
  content : Option String
  sources : Option (List Citation)
  timestamp : Nat
  deriving DecidableEq, Repr

/-- The `apiStatus` state value: `checking`, `online` or `offline`. -/
inductive ApiStatus where
  | checking
  | online
  | offline
  deriving DecidableEq, BEq, Repr

/-- A document record as consumed by `renderDocuments`
(`id`, `title`, `organization`, `doc_type`, `year`, `uploaded_at`). -/
structure Document where
  id : String
  title : String
  organization : String
  doc_type : String
  year : Int
  uploaded_at : String
  deriving DecidableEq, Repr

/-- The React component state of `App` (the useState hooks, minus the
DOM ref). -/
structure AppState where
  currentPage : String
  messages : List Message
  inputValue : String
  isLoading : Bool
  documents : List Document
  uploadProgress : Nat
  apiStatus : ApiStatus
  deriving DecidableEq, Repr

/-- The initial state: `useState('home')`, `useState([])`, `useState('')`,
`useState(false)`, `useState([])`, `useState(0)`, `useState('checking')`. -/
def initialState : AppState :=
  { currentPage := "home"
    messages := []
    inputValue := ""
    isLoading := false
    documents := []
    uploadProgress := 0
    apiStatus := ApiStatus.checking }

/-- The body of the `/health` response; `checkApiHealth` only inspects
`response.data.status` (the `services` and `timestamp` fields are never
read and are omitted). -/
structure HealthData where
  status : String
  deriving DecidableEq, Repr

/-- `checkApiHealth`: on a resolved response it sets `apiStatus` to
`online` only when `response.data.status === 'success'` (the non-success
branch does nothing); when the promise rejects the catch block sets
`apiStatus` to `offline` (and logs). -/
def checkApiHealth (st : AppState) (result : Except Unit HealthData) : AppState :=
  match result with
  | Except.ok d =>
      if d.status = "success" then { st with apiStatus := ApiStatus.online } else st
  | Except.error _ => { st with apiStatus := ApiStatus.offline }

/-- The body of the `/documents` response: `{status, documents}`. -/
structure DocsData where
  status : String
  documents : List Document
  deriving DecidableEq, Repr

/-- `loadDocuments`: on a resolved response with `status === 'success'`
it replaces `documents` wholesale; otherwise (non-success body or a
rejected promise) it changes nothing — the catch block only logs. -/
def loadDocuments (st : AppState) (result : Except Unit DocsData) : AppState :=
  match result with
  | Except.ok d =>
      if d.status = "success" then { st with documents := d.documents } else st
  | Except.error _ => st

/-- The body of the `/chat` response.  The handler reads only
`response.data.answer` and `response.data.sources`; a `status` marker, if
the server sends one, is never inspected (kept here to state that fact). -/
structure ChatData where
  status : Option String
  answer : Option String
  sources : Option (List Citation)
  deriving DecidableEq, Repr

/-- JavaScript `String.prototype.trim()`: strip leading and trailing
whitespace (defined structurally so concrete inputs evaluate). -/
def jsTrim (s : String) : String :=
  String.mk (((s.data.dropWhile Char.isWhitespace).reverse.dropWhile
      Char.isWhitespace).reverse)

/-- The `userMessage` literal in `handleSendMessage`: id `Date.now()`,
raw untrimmed content. -/
def userMessage (input : String) (t0 : Nat) : Message :=
  { id := t0, type := MsgType.user, content := some input,
    sources := none, timestamp := t0 }

/-- The synchronous phase of `handleSendMessage` (everything before the
awaited `axios.post`): if `inputValue.trim()` is falsy (empty) it returns
at once; otherwise it appends the user message, clears the input and sets
`isLoading`.  The second component is the dispatched request body
(`{query: inputValue}`, the raw input), `none` when no request is
dispatched. -/
def handleSendMessageSync (st : AppState) (t0 : Nat) : AppState × Option String :=
  if jsTrim st.inputValue = "" then (st, none)
  else
    ({ st with
        messages := st.messages ++ [userMessage st.inputValue t0]
        inputValue := ""
        isLoading := true },
     some st.inputValue)

/-- The `aiMessage` literal in `handleSendMessage`: id `Date.now() + 1`,
content and sources copied verbatim from the response body. -/
def aiMessage (d : ChatData) (t1 : Nat) : Message :=
  { id := t1 + 1, type := MsgType.assistant, content := d.answer,
    sources := d.sources, timestamp := t1 }

/-- The `errorMessage` literal in the catch block of `handleSendMessage`:
id `Date.now() + 1` and a fixed human-readable explanation. -/
def chatErrorMessage (t1 : Nat) : Message :=
  { id := t1 + 1, type := MsgType.error,
    content := some "Error: Could not connect to backend. Please check if the server is running.",
    sources := none, timestamp := t1 }

/-- The completion phase of `handleSendMessage`: on a resolved response it
appends the assistant message via the functional update
`prev => [...prev, m]`; on a rejected promise it appends the fixed error
message the same way.  The `finally` block clears `isLoading` on both
paths. -/
def handleSendMessageAsync (st : AppState) (t1 : Nat)
    (result : Except Unit ChatData) : AppState :=
  match result with
  | Except.ok d =>
      { st with messages := st.messages ++ [aiMessage d t1], isLoading := false }
  | Except.error _ =>
      { st with messages := st.messages ++ [chatErrorMessage t1], isLoading := false }

/-- The whole `handleSendMessage` lifecycle run without interleaving:
the synchronous phase at time `t0`, then, when a request was dispatched,
the completion phase at time `t1` with outcome `result`. -/
def handleSendMessage (st : AppState) (t0 t1 : Nat)
    (result : Except Unit ChatData) : AppState :=
  match handleSendMessageSync st t0 with
  | (st1, none) => st1
  | (st1, some _) => handleSendMessageAsync st1 t1 result

/-- JavaScript `Math.round (num / den)` for natural `num` and positive
`den`: round half up, i.e. `⌊num/den + 1/2⌋ = (2*num + den) / (2*den)`. -/
def jsRound (num den : Nat) : Nat :=
  (2 * num + den) / (2 * den)

/-- `Math.round((progressEvent.loaded * 100) / progressEvent.total)`. -/
def percentComplete (loaded total : Nat) : Nat :=
  jsRound (loaded * 100) total

/-- The `onUploadProgress` callback: stores `percentComplete` into the
`uploadProgress` state. -/
def onUploadProgress (st : AppState) (loaded total : Nat) : AppState :=
  { st with uploadProgress := percentComplete loaded total }

/-- The body of a resolved `/upload` response: `{status, filename, size}`. -/
structure UploadOkData where
  status : String
  filename : String
  size : String
  deriving DecidableEq, Repr

/-- A rejected `/upload` promise: `error.response?.data?.message` (absent
when the failure is transport-level) and `error.message`. -/
structure UploadFailure where
  serverMessage : Option String
  message : String
  deriving DecidableEq, Repr

/-- JavaScript `a || b` on strings where `a` may be `undefined`: an
absent or empty (falsy) `a` yields `b`. -/
def jsOrString (a : Option String) (b : String) : String :=
  match a with
  | some s => if s = "" then b else s
  | none => b

/-- The synchronous phase of `handleFileUpload`: if no file was selected
it returns at once; otherwise it sets `isLoading` and resets
`uploadProgress`, and the closure captures the current `messages` list
(returned as the second component) before the awaited `axios.post`. -/
def handleFileUploadStart (st : AppState) (file : Option String) :
    AppState × Option (List Message) :=
  match file with
  | none => (st, none)
  | some _ => ({ st with isLoading := true, uploadProgress := 0 }, some st.messages)

/-- The `successMessage` literal in `handleFileUpload`: id `Date.now()`,
summarizing filename and size from the response body. -/
def uploadSuccessMessage (d : UploadOkData) (t : Nat) : Message :=
  { id := t, type := MsgType.success,
    content := some ("✅ " ++ d.filename ++ " uploaded successfully (" ++ d.size ++ ")"),
    sources := none, timestamp := t }

/-- `handleFileUpload` when the upload promise resolves: only when
`response.data.status === 'success'` is the success message appended —
via `setMessages([...messages, m])`, i.e. onto the `snapshot` captured at
dispatch, replacing the current list; a resolved non-success body appends
nothing.  The `finally` block clears `isLoading` and resets
`uploadProgress` either way.  (On success the code also fires
`loadDocuments()`, a separate asynchronous step modelled by
`loadDocuments` applied at its own completion event.) -/
def handleFileUploadResolve (snapshot : List Message) (st : AppState)
    (t : Nat) (d : UploadOkData) : AppState :=
  if d.status = "success" then
    { st with
        messages := snapshot ++ [uploadSuccessMessage d t]
        isLoading := false
        uploadProgress := 0 }
  else
    { st with isLoading := false, uploadProgress := 0 }

/-- The `errorMessage` literal in the catch block of `handleFileUpload`:
id `Date.now()` and `error.response?.data?.message || error.message`. -/
def uploadErrorMessage (e : UploadFailure) (t : Nat) : Message :=
  { id := t, type := MsgType.error,
    content := some ("Error uploading file: " ++ jsOrString e.serverMessage e.message),
    sources := none, timestamp := t }

/-- `handleFileUpload` when the upload promise rejects: the catch block
appends one error message, again onto the closure snapshot; the `finally`
block clears `isLoading` and `uploadProgress`. -/
def handleFileUploadReject (snapshot : List Message) (st : AppState)
    (t : Nat) (e : UploadFailure) : AppState :=
  { st with
      messages := snapshot ++ [uploadErrorMessage e t]
      isLoading := false
      uploadProgress := 0 }

/-- `loadSampleData` completion: on a resolved `/init` request it appends
one success message onto the closure snapshot (and fires the separate
asynchronous `loadDocuments`); on rejection it only logs. -/
def loadSampleDataComplete (snapshot : List Message) (st : AppState)
    (t : Nat) (result : Except Unit Unit) : AppState :=
  match result with
  | Except.ok _ =>
      let msg : Message :=
        { id := t, type := MsgType.success,
          content := some "✅ Sample documents loaded! Try asking about \"COVID relief\", \"healthcare spending\", or \"education budget\"",
          sources := none, timestamp := t }
      { st with messages := snapshot ++ [msg] }
  | Except.error _ => st

/-- The `disabled` attribute of the chat text input in `renderChat`:
`isLoading || apiStatus === 'offline'`. -/
def chatInputDisabled (st : AppState) : Bool :=
  st.isLoading || st.apiStatus == ApiStatus.offline

/-- The `disabled` attribute of the send button in `renderChat`:
`isLoading || !inputValue.trim() || apiStatus === 'offline'`. -/
def sendButtonDisabled (st : AppState) : Bool :=
  st.isLoading || jsTrim st.inputValue == "" || st.apiStatus == ApiStatus.offline

/-- The `disabled` attribute of the file input in `renderChat`:
`isLoading` only. -/
def fileInputDisabled (st : AppState) : Bool :=
  st.isLoading

/-! ## Theorems -/

/-- Claim C6: when the document-list request fails, the `documents` cache
(and the whole state, so in particular ConversationState) is left exactly
equal to its value before the call; the failure is only logged. -/
theorem loadDocuments_failure_noop (st : AppState) :
    loadDocuments st (Except.error ()) = st := rfl

/-- Claim C3, counterexample: a health response that resolves with a
non-success status marker does not transition `apiStatus` to `offline`;
from the initial `checking` state it stays `checking`. -/
theorem nonsuccess_health_keeps_checking_cx :
    (checkApiHealth initialState (Except.ok { status := "error" })).apiStatus
        = ApiStatus.checking ∧
    (checkApiHealth initialState (Except.ok { status := "error" })).apiStatus
        ≠ ApiStatus.offline := by
  constructor
  · rfl
  · decide

/-- Claim C3 (amended): `checkApiHealth` sets `apiStatus` to `online`
exactly when the response resolves with status marker `"success"`, sets it
to `offline` exactly when the promise rejects, and leaves it unchanged
when the response resolves with a non-success marker. -/
theorem checkApiHealth_status_cases (st : AppState) (result : Except Unit HealthData) :
    (checkApiHealth st result).apiStatus =
      (match result with
       | Except.ok d => if d.status = "success" then ApiStatus.online else st.apiStatus
       | Except.error _ => ApiStatus.offline) := by
  cases result with
  | ok d =>
      by_cases hd : d.status = "success" <;> simp [checkApiHealth, hd]
  | error e => rfl

/-- Claim C2, counterexample: in a state where `apiStatus` is `offline`
and nothing is loading, the file-upload affordance is NOT disabled, so an
upload can still be dispatched while offline. -/
theorem upload_enabled_while_offline_cx :
    ({ initialState with apiStatus := ApiStatus.offline } : AppState).apiStatus
        = ApiStatus.offline ∧
    fileInputDisabled { initialState with apiStatus := ApiStatus.offline } = false := by
  constructor
  · rfl
  · rfl

/-- Claim C2 (amended): when `apiStatus` is `offline` the chat-submission
affordance is disabled (both the text input and the send button), so
`send` cannot be triggered; the file-upload affordance however is
disabled exactly when `isLoading` holds, independently of the offline
status. -/
theorem offline_gates_chat_not_upload (st : AppState)
    (h : st.apiStatus = ApiStatus.offline) :
    chatInputDisabled st = true ∧ sendButtonDisabled st = true ∧
    fileInputDisabled st = st.isLoading := by
  have e : (ApiStatus.offline == ApiStatus.offline) = true := rfl
  unfold chatInputDisabled sendButtonDisabled fileInputDisabled
  rw [h, e]
  simp

/-- Witness for `offline_gates_chat_not_upload` at a concrete offline
state. -/
theorem offline_gates_chat_not_upload_witness :
    ({ initialState with apiStatus := ApiStatus.offline } : AppState).apiStatus
        = ApiStatus.offline ∧
    (chatInputDisabled { initialState with apiStatus := ApiStatus.offline } = true ∧
     sendButtonDisabled { initialState with apiStatus := ApiStatus.offline } = true ∧
     fileInputDisabled { initialState with apiStatus := ApiStatus.offline }
        = ({ initialState with apiStatus := ApiStatus.offline } : AppState).isLoading) :=
  ⟨rfl, offline_gates_chat_not_upload _ rfl⟩

/-- Claim C9: invoking `handleSendMessage` with an input buffer that is
empty after trimming changes nothing: no entry is appended, the input
buffer is not cleared, the loading indicator is not activated, and no
request is dispatched (the dispatched-query component is `none`). -/
theorem send_blank_input_noop (st : AppState) (t0 t1 : Nat)
    (result : Except Unit ChatData) (h : jsTrim st.inputValue = "") :
    handleSendMessageSync st t0 = (st, none) ∧
    handleSendMessage st t0 t1 result = st := by
  have hs : handleSendMessageSync st t0 = (st, none) := by
    unfold handleSendMessageSync
    rw [if_pos h]
  refine ⟨hs, ?_⟩
  unfold handleSendMessage
  rw [hs]

/-- Witness for `send_blank_input_noop` on a whitespace-only buffer. -/
theorem send_blank_input_noop_witness :
    jsTrim ({ initialState with inputValue := "   " } : AppState).inputValue = "" ∧
    (handleSendMessageSync { initialState with inputValue := "   " } 0
        = ({ initialState with inputValue := "   " }, none) ∧
     handleSendMessage { initialState with inputValue := "   " } 0 1
        (Except.error ()) = { initialState with inputValue := "   " }) :=
  ⟨by decide, send_blank_input_noop _ 0 1 (Except.error ()) (by decide)⟩

/-- Helper: with a non-empty trimmed input, the send lifecycle appends the
user message and then exactly one terminal message determined by the
promise outcome. -/
theorem handleSendMessage_messages_eq (st : AppState) (t0 t1 : Nat)
    (result : Except Unit ChatData) (h : jsTrim st.inputValue ≠ "") :
    (handleSendMessageSync st t0).1.messages
        = st.messages ++ [userMessage st.inputValue t0] ∧
    (handleSendMessage st t0 t1 result).messages
        = st.messages ++ [userMessage st.inputValue t0,
            match result with
            | Except.ok d => aiMessage d t1
            | Except.error _ => chatErrorMessage t1] := by
  have hs : handleSendMessageSync st t0 =
      ({ st with
          messages := st.messages ++ [userMessage st.inputValue t0]
          inputValue := ""
          isLoading := true },
       some st.inputValue) := by
    unfold handleSendMessageSync
    rw [if_neg h]
  constructor
  · rw [hs]
  · unfold handleSendMessage
    rw [hs]
    cases result <;> simp [handleSendMessageAsync]

/-- Claim C1: for every send whose trimmed input is non-empty, exactly one
user entry is appended immediately, and after the request settles the log
is the old log plus exactly that user entry and exactly one terminal
entry — an assistant entry when the promise resolves, an error entry when
it rejects, never both and never neither. -/
theorem send_appends_user_and_one_terminal (st : AppState) (t0 t1 : Nat)
    (result : Except Unit ChatData) (h : jsTrim st.inputValue ≠ "") :
    ∃ u term : Message,
      (handleSendMessageSync st t0).1.messages = st.messages ++ [u] ∧
      u.type = MsgType.user ∧
      (handleSendMessage st t0 t1 result).messages = st.messages ++ [u, term] ∧
      term.type = (match result with
        | Except.ok _ => MsgType.assistant
        | Except.error _ => MsgType.error) := by
  obtain ⟨h1, h2⟩ := handleSendMessage_messages_eq st t0 t1 result h
  refine ⟨userMessage st.inputValue t0, _, h1, rfl, h2, ?_⟩
  cases result <;> rfl

/-- Witness for `send_appends_user_and_one_terminal` on input "hello"
with a resolved response. -/
theorem send_appends_user_and_one_terminal_witness :
    jsTrim ({ initialState with inputValue := "hello" } : AppState).inputValue ≠ "" ∧
    (∃ u term : Message,
      (handleSendMessageSync { initialState with inputValue := "hello" } 3).1.messages
          = ({ initialState with inputValue := "hello" } : AppState).messages ++ [u] ∧
      u.type = MsgType.user ∧
      (handleSendMessage { initialState with inputValue := "hello" } 3 5
          (Except.ok { status := none, answer := some "42", sources := some [] })).messages
          = ({ initialState with inputValue := "hello" } : AppState).messages ++ [u, term] ∧
      term.type = MsgType.assistant) :=
  ⟨by decide,
   send_appends_user_and_one_terminal { initialState with inputValue := "hello" } 3 5
     (Except.ok { status := none, answer := some "42", sources := some [] }) (by decide)⟩

/-- Claim C10: on the chat path the terminal-entry kind is decided solely
by promise resolution — every resolved response, whatever its status
marker, yields an assistant entry whose content and sources are copied
verbatim from the body (possibly absent), and an error entry appears
exactly when the promise rejects. -/
theorem chat_terminal_by_resolution (st : AppState) (t0 t1 : Nat)
    (h : jsTrim st.inputValue ≠ "") :
    (∀ d : ChatData, ∃ u term : Message,
        (handleSendMessage st t0 t1 (Except.ok d)).messages
            = st.messages ++ [u, term] ∧
        term.type = MsgType.assistant ∧ term.content = d.answer ∧
        term.sources = d.sources) ∧
    (∃ u term : Message,
        (handleSendMessage st t0 t1 (Except.error ())).messages
            = st.messages ++ [u, term] ∧
        term.type = MsgType.error) := by
  constructor
  · intro d
    obtain ⟨-, h2⟩ := handleSendMessage_messages_eq st t0 t1 (Except.ok d) h
    exact ⟨_, _, h2, rfl, rfl, rfl⟩
  · obtain ⟨-, h2⟩ := handleSendMessage_messages_eq st t0 t1 (Except.error ()) h
    exact ⟨_, _, h2, rfl⟩

/-- Witness for `chat_terminal_by_resolution` on input "q": a body that
carries a non-success status marker still yields an assistant entry. -/
theorem chat_terminal_by_resolution_witness :
    jsTrim ({ initialState with inputValue := "q" } : AppState).inputValue ≠ "" ∧
    ((∀ d : ChatData, ∃ u term : Message,
        (handleSendMessage { initialState with inputValue := "q" } 2 6
            (Except.ok d)).messages
            = ({ initialState with inputValue := "q" } : AppState).messages ++ [u, term] ∧
        term.type = MsgType.assistant ∧ term.content = d.answer ∧
        term.sources = d.sources) ∧
     (∃ u term : Message,
        (handleSendMessage { initialState with inputValue := "q" } 2 6
            (Except.error ())).messages
            = ({ initialState with inputValue := "q" } : AppState).messages ++ [u, term] ∧
        term.type = MsgType.error)) :=
  ⟨by decide, chat_terminal_by_resolution { initialState with inputValue := "q" } 2 6 (by decide)⟩

/-- Claim C8, counterexample: ids are bare `Date.now()` timestamps across
operations, so a user entry from a send and an upload success entry
created in the same millisecond end up IN THE SAME LOG as two distinct
entries with EQUAL ids — there is no cross-operation tie-break. -/
theorem same_ms_ids_collide_cx :
    ∃ u s : Message,
      (handleFileUploadResolve
          (handleSendMessageSync { initialState with inputValue := "q" } 7).1.messages
          (handleSendMessageSync { initialState with inputValue := "q" } 7).1 7
          { status := "success", filename := "a.pdf", size := "1 MB" }).messages
        = [u, s] ∧
      u ≠ s ∧ u.id = s.id := by
  refine ⟨userMessage "q" 7,
          uploadSuccessMessage { status := "success", filename := "a.pdf", size := "1 MB" } 7,
          by decide, by decide, rfl⟩

/-- Claim C8 (amended): within a single send the two appended entries do
have distinct ids (the terminal id is the completion time plus one, and
completion is not earlier than dispatch), but uniqueness across
operations in the same millisecond does not hold. -/
theorem send_entry_ids_distinct (st : AppState) (t0 t1 : Nat)
    (result : Except Unit ChatData) (h : jsTrim st.inputValue ≠ "")
    (hle : t0 ≤ t1) :
    ∃ u term : Message,
      (handleSendMessage st t0 t1 result).messages = st.messages ++ [u, term] ∧
      u.id ≠ term.id := by
  obtain ⟨-, h2⟩ := handleSendMessage_messages_eq st t0 t1 result h
  refine ⟨_, _, h2, ?_⟩
  cases result <;> (show t0 ≠ t1 + 1; omega)

/-- Witness for `send_entry_ids_distinct` at dispatch time 7 and
completion time 7 (a same-millisecond response). -/
theorem send_entry_ids_distinct_witness :
    jsTrim ({ initialState with inputValue := "hi" } : AppState).inputValue ≠ "" ∧ 7 ≤ 7 ∧
    (∃ u term : Message,
      (handleSendMessage { initialState with inputValue := "hi" } 7 7
          (Except.error ())).messages
          = ({ initialState with inputValue := "hi" } : AppState).messages ++ [u, term] ∧
      u.id ≠ term.id) :=
  ⟨by decide, by decide,
   send_entry_ids_distinct { initialState with inputValue := "hi" } 7 7
     (Except.error ()) (by decide) (by decide)⟩

/-- Claim C4, counterexample: when the upload promise resolves but the
body carries a non-success status, NO conversation entry is appended at
all — the claimed single error entry never appears. -/
theorem upload_nonsuccess_resolve_appends_nothing_cx :
    (handleFileUploadResolve [] initialState 4
        { status := "error", filename := "f.pdf", size := "1 MB" }).messages = [] := by
  decide

/-- Claim C4 (amended): a resolved upload response with a non-success
status appends no entry (the transfer just resets silently); the error
entry — carrying `error.response?.data?.message` when that is present and
truthy, else the generic transport `error.message` — is appended exactly
when the upload promise rejects. -/
theorem upload_terminal_entries (snapshot : List Message) (st : AppState)
    (t : Nat) (d : UploadOkData) (e : UploadFailure) (h : d.status ≠ "success") :
    (handleFileUploadResolve snapshot st t d).messages = st.messages ∧
    (handleFileUploadResolve snapshot st t d).uploadProgress = 0 ∧
    (handleFileUploadReject snapshot st t e).messages
        = snapshot ++ [uploadErrorMessage e t] := by
  refine ⟨?_, ?_, rfl⟩ <;>
    · unfold handleFileUploadResolve
      rw [if_neg h]

/-- Witness for `upload_terminal_entries` on a body with status "fail"
and a rejection carrying a server message. -/
theorem upload_terminal_entries_witness :
    ({ status := "fail", filename := "g.pdf", size := "2 MB" } : UploadOkData).status
        ≠ "success" ∧
    ((handleFileUploadResolve [] initialState 8
        { status := "fail", filename := "g.pdf", size := "2 MB" }).messages
        = initialState.messages ∧
     (handleFileUploadResolve [] initialState 8
        { status := "fail", filename := "g.pdf", size := "2 MB" }).uploadProgress = 0 ∧
     (handleFileUploadReject [] initialState 8
        { serverMessage := some "File type not allowed", message := "Request failed with status code 400" }).messages
        = [] ++ [uploadErrorMessage
            { serverMessage := some "File type not allowed", message := "Request failed with status code 400" } 8]) :=
  ⟨by decide,
   upload_terminal_entries [] initialState 8
     { status := "fail", filename := "g.pdf", size := "2 MB" }
     { serverMessage := some "File type not allowed", message := "Request failed with status code 400" }
     (by decide)⟩

/-- Claim C5: the append-only invariant is the intended behavior, but the
upload-completion append (`setMessages([...messages, m])`) writes the
snapshot captured at dispatch time plus the new entry, so an assistant
entry appended by a chat completion that arrived while the upload was in
flight is dropped: starting from the empty log, dispatching an upload
(snapshot `[]`), letting a chat completion append its assistant entry,
and then letting the upload resolve leaves a log in which that assistant
entry no longer occurs. -/
theorem upload_completion_drops_concurrent_entry :
    ∃ a : Message,
      (handleSendMessageAsync initialState 5
          (Except.ok { status := none, answer := some "ans", sources := some [] })).messages
        = [a] ∧
      a.type = MsgType.assistant ∧
      a ∉ (handleFileUploadResolve initialState.messages
            (handleSendMessageAsync initialState 5
              (Except.ok { status := none, answer := some "ans", sources := some [] }))
            9 { status := "success", filename := "report.pdf", size := "2 MB" }).messages := by
  refine ⟨aiMessage { status := none, answer := some "ans", sources := some [] } 5,
          rfl, rfl, ?_⟩
  decide

/-- Helper: `percentComplete` is monotone in the bytes loaded. -/
theorem percentComplete_le_percentComplete {a b : Nat} (total : Nat)
    (hab : a ≤ b) : percentComplete a total ≤ percentComplete b total := by
  unfold percentComplete jsRound
  exact Nat.div_le_div_right (by omega)

/-- Helper: when all bytes are loaded the computed percentage is 100. -/
theorem percentComplete_total (total : Nat) (ht : 0 < total) :
    percentComplete total total = 100 := by
  unfold percentComplete jsRound
  have h1 : 2 * (total * 100) + total = total + 2 * total * 100 := by ring
  rw [h1, Nat.add_mul_div_left _ _ (by omega : 0 < 2 * total),
      Nat.div_eq_of_lt (by omega)]

/-- Claim C7: each progress event stores
`Math.round(loaded * 100 / total)` into `uploadProgress`; over any
sequence of events with non-decreasing loaded byte counts the successive
percentages are non-decreasing, and the final event of a successful
transfer (`loaded = total`) yields 100. -/
theorem uploadProgress_monotone_and_complete (st : AppState) (total : Nat)
    (events : List Nat) (ht : 0 < total)
    (hmono : List.Chain' (· ≤ ·) events) :
    (∀ loaded, (onUploadProgress st loaded total).uploadProgress
        = percentComplete loaded total) ∧
    List.Chain' (· ≤ ·) (events.map (fun loaded => percentComplete loaded total)) ∧
    percentComplete total total = 100 := by
  refine ⟨fun loaded => rfl, ?_, percentComplete_total total ht⟩
  exact (List.chain'_map _).mpr
    (hmono.imp fun a b hab => percentComplete_le_percentComplete total hab)

/-- Witness for `uploadProgress_monotone_and_complete`: the 25/50/75/100
byte schedule on a 100-byte total. -/
theorem uploadProgress_monotone_and_complete_witness :
    0 < 100 ∧ List.Chain' (· ≤ ·) [25, 50, 75, 100] ∧
    ((∀ loaded, (onUploadProgress initialState loaded 100).uploadProgress
        = percentComplete loaded 100) ∧
     List.Chain' (· ≤ ·)
        ([25, 50, 75, 100].map (fun loaded => percentComplete loaded 100)) ∧
     percentComplete 100 100 = 100) :=
  ⟨by decide, by simp [List.chain'_cons],
   uploadProgress_monotone_and_complete initialState 100 [25, 50, 75, 100]
     (by decide) (by simp [List.chain'_cons])⟩
